import Mathlib

/-!
Verification of `src/server/services/g4f_client.py` (the G4F completion
adapter).  The program reads a JSON document from stdin, forwards the
request to an external chat-completion provider, and writes exactly one
JSON document to stdout.

Modelling decisions (shallow embedding):

* JSON values are modelled by the inductive `JVal`.  Parsed JSON objects
  (Python dicts produced by `json.loads`) are association lists with
  distinct keys; lookup takes the first matching key.  JSON numbers are
  exact rationals.
* `json.loads` on the raw stdin bytes is an opaque library call; it is
  modelled by its outcome, a value of type `Except String JVal`
  (`.error m` when the bytes are not well-formed JSON, carrying the
  decode-error text `str(e)`).
* The external provider (`client.chat.completions.create`) is an opaque
  capability injected as a function from the model value and the
  formatted message list to `Except String G4FResponse`; `.error m`
  models the call raising an exception whose `str` is `m`.
* Python exception texts for `KeyError` / `TypeError` /
  `AttributeError` are modelled by descriptive strings; no claim depends
  on their exact wording, only on the provider failure text, which is
  preserved verbatim.
* The float multiplication `len(content.split()) * 1.3` followed by
  `int(...)` is modelled as exact arithmetic: truncation of a
  nonnegative value is the floor, giving `13 * wordCount / 10` in `Nat`.
* The process's observable behaviour is the pair
  `(documents printed to stdout, exit code)`; `print` appends one
  document, a normal return of `main` exits with status 0 and
  `sys.exit(1)` with status 1.
-/

/-- A JSON value, as produced by `json.loads`. -/
inductive JVal where
  | jnull : JVal
  | jbool : Bool → JVal
  | jnum : ℚ → JVal
  | jstr : String → JVal
  | jarr : List JVal → JVal
  | jobj : List (String × JVal) → JVal

/-- Dictionary lookup `d[k]` / `d.get(k)` on a parsed JSON object
(association list with distinct keys): the first binding of `k`. -/
def pyLookup (fields : List (String × JVal)) (k : String) : Option JVal :=
  (fields.find? (fun p => p.1 = k)).map (fun p => p.2)

/-- `data.get(k, default)`: succeeds on a dict, returning the stored
value or the default; on any other value `.get` does not exist and an
`AttributeError` is raised. -/
def pyGet (data : JVal) (k : String) (default : JVal) : Except String JVal :=
  match data with
  | .jobj fields => .ok ((pyLookup fields k).getD default)
  | .jarr _ => .error "'list' object has no attribute 'get'"
  | .jstr _ => .error "'str' object has no attribute 'get'"
  | .jnum _ => .error "'float' object has no attribute 'get'"
  | .jbool _ => .error "'bool' object has no attribute 'get'"
  | .jnull => .error "'NoneType' object has no attribute 'get'"

/-- A message as reshaped by `chat_completion` and handed to the
provider: the dict `{"role": msg["role"], "content": msg["content"]}` —
exactly two fields, nothing else survives the reshaping. -/
structure FormattedMsg where
  role : JVal
  content : JVal

/-- `response.choices[i].message`. -/
structure RespMessage where
  content : String

/-- One element of `response.choices`. -/
structure Choice where
  message : RespMessage

/-- The provider response object. -/
structure G4FResponse where
  choices : List Choice

/-- The injected external completion capability
(`client.chat.completions.create` with `stream=False`), taking the
`model` value and the formatted messages; `.error m` models the call
raising an exception with text `m`. -/
def Provider : Type :=
  JVal → List FormattedMsg → Except String G4FResponse

/-- Reshape one message: `{"role": msg["role"], "content": msg["content"]}`.
A missing key raises `KeyError`; indexing a non-dict by a string raises
`TypeError`. -/
def formatOne (m : JVal) : Except String FormattedMsg :=
  match m with
  | .jobj fields =>
    match pyLookup fields "role" with
    | none => .error "'role'"
    | some r =>
      match pyLookup fields "content" with
      | none => .error "'content'"
      | some c => .ok ⟨r, c⟩
  | _ => .error "indices must be integers"

/-- The `for msg in messages` loop building `formatted_messages`,
processed in order; the first raising element aborts the loop. -/
def formatList : List JVal → Except String (List FormattedMsg)
  | [] => .ok []
  | m :: ms =>
    match formatOne m with
    | .error e => .error e
    | .ok fm =>
      match formatList ms with
      | .error e => .error e
      | .ok rest => .ok (fm :: rest)

/-- Iterating `messages`: a JSON array iterates over its elements; a
string iterates over its characters and a dict over its keys (each of
which then raises `TypeError` when string-indexed, unless empty); other
values are not iterable. -/
def formatMessages : JVal → Except String (List FormattedMsg)
  | .jarr ms => formatList ms
  | .jstr s => if s = "" then .ok [] else .error "string indices must be integers"
  | .jobj [] => .ok []
  | .jobj (_ :: _) => .error "string indices must be integers"
  | _ => .error "object is not iterable"

/-- `len(content.split())`: the number of maximal whitespace-separated
words of `content` (splitting on runs of whitespace, ignoring leading
and trailing whitespace). -/
def wordCount (s : String) : Nat :=
  ((s.split (fun c => c.isWhitespace)).filter (fun w => w ≠ "")).length

/-- `int(len(content.split()) * 1.3)`: the word count times 1.3,
truncated toward zero — for a nonnegative value this is the floor, i.e.
`13 * wordCount / 10` in natural-number division (the multiplication is
modelled as exact arithmetic). -/
def estimateTokens (content : String) : Nat :=
  13 * wordCount content / 10

/-- The success result dict built by `chat_completion`. -/
def successObj (content : String) : JVal :=
  .jobj [("content", .jstr content),
         ("tokens", .jnum (estimateTokens content : ℚ)),
         ("cost", .jnum 0),
         ("provider", .jstr "g4f")]

/-- The error result dict built by `main`'s `except` clause. -/
def errorObj (msg : String) : JVal :=
  .jobj [("error", .jstr msg), ("provider", .jstr "g4f")]

/-- The body of `chat_completion`'s `try` block: reshape the messages,
call the provider, take `response.choices[0].message.content` (an empty
`choices` list raises `IndexError`), estimate tokens and build the
success dict.  Each step propagates the exception of the one before
it. -/
def chat_completion_body (provider : Provider) (messages : JVal)
    (model : JVal) : Except String JVal :=
  match formatMessages messages with
  | .error e => .error e
  | .ok formatted =>
    match provider model formatted with
    | .error e => .error e
    | .ok response =>
      match response.choices with
      | [] => .error "list index out of range"
      | c :: _ => .ok (successObj c.message.content)

/-- `chat_completion(messages, model, temperature, max_tokens)`: run the
`try` block; any exception `e` raised inside is re-raised as
`Exception("G4F completion failed: " + str(e))`.  `temperature` and
`max_tokens` are accepted but never used. -/
def chat_completion (provider : Provider) (messages : JVal) (model : JVal)
    (temperature : JVal) (max_tokens : JVal) : Except String JVal :=
  match chat_completion_body provider messages model with
  | .ok r => .ok r
  | .error e => .error ("G4F completion failed: " ++ e)

/-- `main()`: parse stdin (modelled by its outcome `parsed`), extract the
four fields with their defaults, run `chat_completion`, print the result;
any exception is caught, the error dict is printed and the process exits
with status 1.  The returned pair is (documents printed to stdout, exit
code). -/
def mainRun (provider : Provider) (parsed : Except String JVal) :
    List JVal × Nat :=
  match (do
    let data ← parsed
    let messages ← pyGet data "messages" (.jarr [])
    let model ← pyGet data "model" (.jstr "gpt-4o-mini")
    let temperature ← pyGet data "temperature" (.jnum 0.7)
    let max_tokens ← pyGet data "max_tokens" (.jnum 2000)
    chat_completion provider messages model temperature max_tokens) with
  | .ok result => ([result], 0)
  | .error e => ([errorObj e], 1)

/-- The key list of a JSON object (in order); `[]` for non-objects. -/
def jsonKeys : JVal → List String
  | .jobj fields => fields.map (fun p => p.1)
  | _ => []

/-- A stub provider that always succeeds with a single choice whose
message content is `reply`. -/
def stubProvider (reply : String) : Provider :=
  fun _ _ => .ok ⟨[⟨⟨reply⟩⟩]⟩

/-- A stub provider that always raises, with exception text `m`. -/
def failProvider (m : String) : Provider :=
  fun _ _ => .error m

/-- On a JSON object input the four `data.get` extractions always
succeed, so the run is determined by `chat_completion` on the extracted
values (stored value, or the documented default when the key is
absent). -/
theorem mainRun_obj (provider : Provider) (fields : List (String × JVal)) :
    mainRun provider (.ok (.jobj fields)) =
      match chat_completion provider
          ((pyLookup fields "messages").getD (.jarr []))
          ((pyLookup fields "model").getD (.jstr "gpt-4o-mini"))
          ((pyLookup fields "temperature").getD (.jnum 0.7))
          ((pyLookup fields "max_tokens").getD (.jnum 2000)) with
        | .ok r => ([r], 0)
        | .error e => ([errorObj e], 1) := rfl

/-- Every successful value of `chat_completion` is the success dict for
some content string. -/
theorem chat_completion_ok_shape (provider : Provider)
    (messages model t mt : JVal) (r : JVal)
    (h : chat_completion provider messages model t mt = .ok r) :
    ∃ content, r = successObj content := by
  cases hf : formatMessages messages with
  | error e => simp [chat_completion, chat_completion_body, hf] at h
  | ok fmts =>
    cases hp : provider model fmts with
    | error e => simp [chat_completion, chat_completion_body, hf, hp] at h
    | ok resp =>
      cases hc : resp.choices with
      | nil => simp [chat_completion, chat_completion_body, hf, hp, hc] at h
      | cons c rest =>
        simp [chat_completion, chat_completion_body, hf, hp, hc] at h
        exact ⟨c.message.content, h.symm⟩

/-- Every run that exits with status 0 printed the success dict for some
content string. -/
theorem mainRun_exit0_shape (provider : Provider) (parsed : Except String JVal)
    (o : JVal) (h : mainRun provider parsed = ([o], 0)) :
    ∃ content, o = successObj content := by
  cases parsed with
  | error e => simp [mainRun, bind, Except.bind] at h
  | ok v =>
    cases v with
    | jobj fields =>
      rw [mainRun_obj] at h
      cases hc : chat_completion provider
          ((pyLookup fields "messages").getD (.jarr []))
          ((pyLookup fields "model").getD (.jstr "gpt-4o-mini"))
          ((pyLookup fields "temperature").getD (.jnum 0.7))
          ((pyLookup fields "max_tokens").getD (.jnum 2000)) with
      | error e => rw [hc] at h; simp at h
      | ok r =>
        rw [hc] at h
        simp only [Prod.mk.injEq, List.cons.injEq, and_true] at h
        obtain ⟨content, hr⟩ := chat_completion_ok_shape provider _ _ _ _ r hc
        exact ⟨content, h ▸ hr⟩
    | jarr xs => simp [mainRun, bind, Except.bind, pyGet] at h
    | jstr s => simp [mainRun, bind, Except.bind, pyGet] at h
    | jnum q => simp [mainRun, bind, Except.bind, pyGet] at h
    | jbool b => simp [mainRun, bind, Except.bind, pyGet] at h
    | jnull => simp [mainRun, bind, Except.bind, pyGet] at h

/-- The token estimate is exactly `⌊1.3 × wordCount⌋` over the rationals. -/
theorem estimateTokens_eq_floor (content : String) :
    estimateTokens content = Nat.floor ((1.3 : ℚ) * (wordCount content : ℚ)) := by
  rw [show ((1.3 : ℚ) * (wordCount content : ℚ)) =
      ((13 * wordCount content : ℕ) : ℚ) / ((10 : ℕ) : ℚ) by push_cast; ring]
  rw [Nat.floor_div_nat, Nat.floor_natCast]
  rfl

/-- C2: for every successful run, the `tokens` field of the printed
output equals `floor(1.3 × w)` computed over exact rationals, where `w`
is the number of maximal whitespace-separated words of the returned
content string. -/
theorem C2_tokens_eq_floor (provider : Provider) (parsed : Except String JVal)
    (o : JVal) (h : mainRun provider parsed = ([o], 0)) :
    ∃ content, o = JVal.jobj [("content", .jstr content),
        ("tokens", .jnum (estimateTokens content : ℚ)),
        ("cost", .jnum 0), ("provider", .jstr "g4f")] ∧
      estimateTokens content = Nat.floor ((1.3 : ℚ) * (wordCount content : ℚ)) := by
  obtain ⟨content, rfl⟩ := mainRun_exit0_shape provider parsed o h
  exact ⟨content, rfl, estimateTokens_eq_floor content⟩

/-- Witness for C2 on a concrete run: the stub provider answers
"hello wide world", and the run succeeds with tokens 3 = ⌊1.3 × 3⌋. -/
theorem C2_tokens_eq_floor_witness :
    ∃ content, successObj "hello wide world" = JVal.jobj [("content", .jstr content),
        ("tokens", .jnum (estimateTokens content : ℚ)),
        ("cost", .jnum 0), ("provider", .jstr "g4f")] ∧
      estimateTokens content = Nat.floor ((1.3 : ℚ) * (wordCount content : ℚ)) :=
  C2_tokens_eq_floor (stubProvider "hello wide world") (.ok (.jobj []))
    (successObj "hello wide world") rfl

/-- C3: when the stdin bytes are not well-formed JSON (`json.loads`
raises with text `m`), the run prints exactly one document, of the error
shape `{error, provider}` with provider `"g4f"`, and exits with status
1. -/
theorem C3_malformed_json (provider : Provider) (m : String) :
    mainRun provider (.error m) = ([errorObj m], 1) ∧
    errorObj m = JVal.jobj [("error", .jstr m), ("provider", .jstr "g4f")] :=
  ⟨rfl, rfl⟩

/-- C4: every run prints exactly one document, which is either the
success shape (keys content, tokens, cost, provider, with exit 0) or the
error shape (keys error, provider, with exit 1) — never both. -/
theorem C4_exactly_one_document (provider : Provider)
    (parsed : Except String JVal) :
    (∃ content, mainRun provider parsed = ([successObj content], 0) ∧
      jsonKeys (successObj content) = ["content", "tokens", "cost", "provider"]) ∨
    (∃ m, mainRun provider parsed = ([errorObj m], 1) ∧
      jsonKeys (errorObj m) = ["error", "provider"]) := by
  cases parsed with
  | error e => exact Or.inr ⟨e, rfl, rfl⟩
  | ok v =>
    cases v with
    | jobj fields =>
      rw [mainRun_obj]
      cases hc : chat_completion provider
          ((pyLookup fields "messages").getD (.jarr []))
          ((pyLookup fields "model").getD (.jstr "gpt-4o-mini"))
          ((pyLookup fields "temperature").getD (.jnum 0.7))
          ((pyLookup fields "max_tokens").getD (.jnum 2000)) with
      | error e => exact Or.inr ⟨e, rfl, rfl⟩
      | ok r =>
        obtain ⟨content, rfl⟩ := chat_completion_ok_shape provider _ _ _ _ r hc
        exact Or.inl ⟨content, rfl, rfl⟩
    | jarr xs => exact Or.inr ⟨_, rfl, rfl⟩
    | jstr s => exact Or.inr ⟨_, rfl, rfl⟩
    | jnum q => exact Or.inr ⟨_, rfl, rfl⟩
    | jbool b => exact Or.inr ⟨_, rfl, rfl⟩
    | jnull => exact Or.inr ⟨_, rfl, rfl⟩

/-- C8: `temperature` and `max_tokens` never reach the provider call:
`chat_completion` is independent of them, and two object inputs that
agree on their `messages` and `model` entries produce identical runs
(same stdout document and exit status) no matter how their
`temperature` and `max_tokens` values differ. -/
theorem C8_tuning_fields_not_forwarded (provider : Provider)
    (f1 f2 : List (String × JVal))
    (hmsg : pyLookup f1 "messages" = pyLookup f2 "messages")
    (hmod : pyLookup f1 "model" = pyLookup f2 "model") :
    (∀ messages model t1 mt1 t2 mt2,
        chat_completion provider messages model t1 mt1 =
          chat_completion provider messages model t2 mt2) ∧
    mainRun provider (.ok (.jobj f1)) = mainRun provider (.ok (.jobj f2)) := by
  refine ⟨fun _ _ _ _ _ _ => rfl, ?_⟩
  rw [mainRun_obj, mainRun_obj, hmsg, hmod]
  rfl

/-- Witness for C8: two concrete inputs differing only in `temperature`
and `max_tokens` values give identical runs. -/
theorem C8_tuning_fields_not_forwarded_witness :
    mainRun (stubProvider "hi") (.ok (.jobj
        [("temperature", .jnum 0), ("max_tokens", .jnum 5)])) =
      mainRun (stubProvider "hi") (.ok (.jobj
        [("temperature", .jnum 1), ("max_tokens", .jnum 99)])) :=
  (C8_tuning_fields_not_forwarded (stubProvider "hi")
    [("temperature", .jnum 0), ("max_tokens", .jnum 5)]
    [("temperature", .jnum 1), ("max_tokens", .jnum 99)] rfl rfl).2

/-- C10: a well-formed JSON input that is not an object (array, string,
number, boolean or null) still yields the error shape on stdout and exit
status 1 — the `AttributeError` from `.get` is caught by the top-level
handler. -/
theorem C10_non_object_input (provider : Provider) (v : JVal)
    (h : ∀ fields, v ≠ JVal.jobj fields) :
    ∃ e, mainRun provider (.ok v) = ([errorObj e], 1) := by
  cases v with
  | jobj fields => exact absurd rfl (h fields)
  | jarr xs => exact ⟨_, rfl⟩
  | jstr s => exact ⟨_, rfl⟩
  | jnum q => exact ⟨_, rfl⟩
  | jbool b => exact ⟨_, rfl⟩
  | jnull => exact ⟨_, rfl⟩

/-- Witness for C10 at the concrete input `[]` (a JSON array). -/
theorem C10_non_object_input_witness :
    ∃ e, mainRun (stubProvider "hi") (.ok (.jarr [])) = ([errorObj e], 1) :=
  C10_non_object_input (stubProvider "hi") (.jarr [])
    (fun _ h => JVal.noConfusion h)

/-- C1: on a well-formed JSON object input with a non-empty `messages`
sequence, if the provider call succeeds (returning a response with a
first choice, per the collaborator contract), the document written to
stdout has exactly the four keys content, tokens, cost, provider, with
cost 0.0 and provider `"g4f"`, and the process exits with status 0. -/
theorem C1_success_output_shape (provider : Provider)
    (fields : List (String × JVal)) (ms : List JVal)
    (fmts : List FormattedMsg) (resp : G4FResponse)
    (c : Choice) (rest : List Choice)
    (hmsg : pyLookup fields "messages" = some (.jarr ms))
    (hne : ms ≠ [])
    (hfmt : formatMessages (.jarr ms) = .ok fmts)
    (hprov : provider ((pyLookup fields "model").getD (.jstr "gpt-4o-mini"))
      fmts = .ok resp)
    (hch : resp.choices = c :: rest) :
    mainRun provider (.ok (.jobj fields)) =
      ([JVal.jobj [("content", .jstr c.message.content),
          ("tokens", .jnum (estimateTokens c.message.content : ℚ)),
          ("cost", .jnum 0), ("provider", .jstr "g4f")]], 0) := by
  rw [mainRun_obj, hmsg, Option.getD_some]
  simp [chat_completion, chat_completion_body, hfmt, hprov, hch, successObj]

/-- Witness for C1: a concrete one-message request answered by a stub
provider. -/
theorem C1_success_output_shape_witness :
    mainRun (stubProvider "hello there")
        (.ok (.jobj [("messages",
          .jarr [.jobj [("role", .jstr "user"), ("content", .jstr "hi")]])])) =
      ([JVal.jobj [("content", .jstr "hello there"),
          ("tokens", .jnum (estimateTokens "hello there" : ℚ)),
          ("cost", .jnum 0), ("provider", .jstr "g4f")]], 0) :=
  C1_success_output_shape (stubProvider "hello there")
    [("messages", .jarr [.jobj [("role", .jstr "user"), ("content", .jstr "hi")]])]
    [.jobj [("role", .jstr "user"), ("content", .jstr "hi")]]
    [⟨.jstr "user", .jstr "hi"⟩] ⟨[⟨⟨"hello there"⟩⟩]⟩ ⟨⟨"hello there"⟩⟩ []
    rfl (List.cons_ne_nil _ _) rfl rfl rfl

/-- C5: when the provider call raises with message `m`, the run prints
the error shape with error text containing `m` (namely
`"G4F completion failed: " ++ m`) and exits with status 1. -/
theorem C5_provider_failure (provider : Provider)
    (fields : List (String × JVal)) (fmts : List FormattedMsg) (m : String)
    (hfmt : formatMessages ((pyLookup fields "messages").getD (.jarr [])) =
      .ok fmts)
    (hprov : provider ((pyLookup fields "model").getD (.jstr "gpt-4o-mini"))
      fmts = .error m) :
    mainRun provider (.ok (.jobj fields)) =
      ([errorObj ("G4F completion failed: " ++ m)], 1) ∧
    ∃ pre suf, "G4F completion failed: " ++ m = pre ++ m ++ suf := by
  constructor
  · rw [mainRun_obj]
    simp [chat_completion, chat_completion_body, hfmt, hprov]
  · exact ⟨"G4F completion failed: ", "", by simp⟩

/-- Witness for C5: a stub provider raising "boom" on an empty request
object. -/
theorem C5_provider_failure_witness :
    mainRun (failProvider "boom") (.ok (.jobj [])) =
      ([errorObj ("G4F completion failed: " ++ "boom")], 1) ∧
    ∃ pre suf, "G4F completion failed: " ++ "boom" = pre ++ "boom" ++ suf :=
  C5_provider_failure (failProvider "boom") [] [] "boom" rfl rfl

/-- C6: when every supplied message has `role` and `content` entries
(possibly alongside extra entries), the formatted sequence handed to the
provider call succeeds, has the same length and order as the input, and
each formatted message consists of exactly the `role` and `content`
values of the corresponding input message — every extra entry is
discarded (a `FormattedMsg` has no other field). -/
theorem C6_message_normalization (ms : List JVal)
    (h : ∀ m ∈ ms, ∃ fs r c, m = JVal.jobj fs ∧
      pyLookup fs "role" = some r ∧ pyLookup fs "content" = some c) :
    ∃ fmts, formatMessages (.jarr ms) = .ok fmts ∧
      fmts.length = ms.length ∧
      List.Forall₂ (fun (m : JVal) (fm : FormattedMsg) => ∃ fs,
        m = JVal.jobj fs ∧ pyLookup fs "role" = some fm.role ∧
        pyLookup fs "content" = some fm.content) ms fmts := by
  induction ms with
  | nil => exact ⟨[], rfl, rfl, List.Forall₂.nil⟩
  | cons m ms ih =>
    obtain ⟨fs, r, c, hm, hr, hc⟩ := h m (List.mem_cons_self m ms)
    obtain ⟨fmts, hfmts, hlen, hfa⟩ :=
      ih (fun x hx => h x (List.mem_cons_of_mem m hx))
    have h1 : formatOne m = .ok ⟨r, c⟩ := by subst hm; simp [formatOne, hr, hc]
    have h2 : formatList ms = .ok fmts := hfmts
    refine ⟨⟨r, c⟩ :: fmts, ?_, by simp [hlen], ?_⟩
    · show formatList (m :: ms) = .ok (⟨r, c⟩ :: fmts)
      simp [formatList, h1, h2]
    · exact List.Forall₂.cons ⟨fs, hm, hr, hc⟩ hfa

/-- Witness for C6: one message carrying an extra entry is normalized to
exactly its role and content. -/
theorem C6_message_normalization_witness :
    ∃ fmts, formatMessages (.jarr [JVal.jobj [("role", .jstr "user"),
        ("content", .jstr "hi"), ("extra", .jnum 1)]]) = .ok fmts ∧
      fmts.length = [JVal.jobj [("role", .jstr "user"),
        ("content", .jstr "hi"), ("extra", .jnum 1)]].length ∧
      List.Forall₂ (fun (m : JVal) (fm : FormattedMsg) => ∃ fs,
        m = JVal.jobj fs ∧ pyLookup fs "role" = some fm.role ∧
        pyLookup fs "content" = some fm.content)
        [JVal.jobj [("role", .jstr "user"), ("content", .jstr "hi"),
          ("extra", .jnum 1)]] fmts :=
  C6_message_normalization _ (by
    intro m hm
    rw [List.mem_singleton] at hm
    subst hm
    exact ⟨[("role", .jstr "user"), ("content", .jstr "hi"),
      ("extra", .jnum 1)], .jstr "user", .jstr "hi", rfl, rfl, rfl⟩)

/-- C7: on a JSON object input, the `data.get` extraction never fails,
and each omitted optional field takes its documented default: `messages`
defaults to the empty sequence, `model` to `"gpt-4o-mini"`, `temperature`
to 0.7 and `max_tokens` to 2000; with all four omitted the run proceeds
with exactly the default values. -/
theorem C7_defaults (provider : Provider) (fields : List (String × JVal)) :
    (∀ k d, ∃ v, pyGet (.jobj fields) k d = .ok v) ∧
    (pyLookup fields "messages" = none →
      pyGet (.jobj fields) "messages" (.jarr []) = .ok (.jarr [])) ∧
    (pyLookup fields "model" = none →
      pyGet (.jobj fields) "model" (.jstr "gpt-4o-mini") =
        .ok (.jstr "gpt-4o-mini")) ∧
    (pyLookup fields "temperature" = none →
      pyGet (.jobj fields) "temperature" (.jnum 0.7) = .ok (.jnum 0.7)) ∧
    (pyLookup fields "max_tokens" = none →
      pyGet (.jobj fields) "max_tokens" (.jnum 2000) = .ok (.jnum 2000)) ∧
    (pyLookup fields "messages" = none → pyLookup fields "model" = none →
     pyLookup fields "temperature" = none →
     pyLookup fields "max_tokens" = none →
      mainRun provider (.ok (.jobj fields)) =
        match chat_completion provider (.jarr []) (.jstr "gpt-4o-mini")
            (.jnum 0.7) (.jnum 2000) with
        | .ok r => ([r], 0)
        | .error e => ([errorObj e], 1)) := by
  refine ⟨fun k d => ⟨_, rfl⟩,
    fun h => by simp [pyGet, h],
    fun h => by simp [pyGet, h],
    fun h => by simp [pyGet, h],
    fun h => by simp [pyGet, h],
    fun h1 h2 h3 h4 => ?_⟩
  rw [mainRun_obj, h1, h2, h3, h4]
  rfl

/-- Witness for C7: an object input with none of the optional fields:
the defaults are returned and the run equals the all-defaults run. -/
theorem C7_defaults_witness :
    pyGet (.jobj [("foo", JVal.jnull)]) "messages" (.jarr []) =
        .ok (.jarr []) ∧
    pyGet (.jobj [("foo", JVal.jnull)]) "model" (.jstr "gpt-4o-mini") =
        .ok (.jstr "gpt-4o-mini") ∧
    pyGet (.jobj [("foo", JVal.jnull)]) "temperature" (.jnum 0.7) =
        .ok (.jnum 0.7) ∧
    pyGet (.jobj [("foo", JVal.jnull)]) "max_tokens" (.jnum 2000) =
        .ok (.jnum 2000) ∧
    mainRun (stubProvider "hi") (.ok (.jobj [("foo", JVal.jnull)])) =
      match chat_completion (stubProvider "hi") (.jarr [])
          (.jstr "gpt-4o-mini") (.jnum 0.7) (.jnum 2000) with
      | .ok r => ([r], 0)
      | .error e => ([errorObj e], 1) :=
  ⟨(C7_defaults (stubProvider "hi") [("foo", JVal.jnull)]).2.1 rfl,
   (C7_defaults (stubProvider "hi") [("foo", JVal.jnull)]).2.2.1 rfl,
   (C7_defaults (stubProvider "hi") [("foo", JVal.jnull)]).2.2.2.1 rfl,
   (C7_defaults (stubProvider "hi") [("foo", JVal.jnull)]).2.2.2.2.1 rfl,
   (C7_defaults (stubProvider "hi") [("foo", JVal.jnull)]).2.2.2.2.2
     rfl rfl rfl rfl⟩

/-- A message object lacking `role` or lacking `content` makes
`formatOne` raise. -/
theorem formatOne_missing_field (fs : List (String × JVal))
    (h : pyLookup fs "role" = none ∨ pyLookup fs "content" = none) :
    ∃ e, formatOne (.jobj fs) = .error e := by
  rcases h with h | h
  · exact ⟨"'role'", by simp [formatOne, h]⟩
  · cases hr : pyLookup fs "role" with
    | none => exact ⟨"'role'", by simp [formatOne, hr]⟩
    | some r => exact ⟨"'content'", by simp [formatOne, hr, h]⟩

/-- If some element of the loop raises, the whole loop raises. -/
theorem formatList_error_of_mem (ms : List JVal)
    (h : ∃ x ∈ ms, ∃ e0, formatOne x = .error e0) :
    ∃ e, formatList ms = .error e := by
  induction ms with
  | nil => simp at h
  | cons m ms ih =>
    obtain ⟨x, hx, e0, he⟩ := h
    cases hfm : formatOne m with
    | error e => exact ⟨e, by simp [formatList, hfm]⟩
    | ok fm =>
      have hx2 : x ∈ ms := by
        rcases List.mem_cons.mp hx with h2 | h2
        · subst h2; rw [hfm] at he; exact absurd he (by simp)
        · exact h2
      obtain ⟨e, he2⟩ := ih ⟨x, hx2, e0, he⟩
      exact ⟨e, by simp [formatList, hfm, he2]⟩

/-- C9: a well-formed JSON object input whose `messages` sequence
contains a message lacking `role` or lacking `content` produces the
error shape and exit status 1 — the `KeyError` aborts the run instead of
defaulting the field or skipping the message. -/
theorem C9_missing_message_field (provider : Provider)
    (fields : List (String × JVal)) (ms : List JVal)
    (fs : List (String × JVal))
    (hmsg : pyLookup fields "messages" = some (.jarr ms))
    (hbad : JVal.jobj fs ∈ ms)
    (hmiss : pyLookup fs "role" = none ∨ pyLookup fs "content" = none) :
    ∃ e, mainRun provider (.ok (.jobj fields)) = ([errorObj e], 1) := by
  obtain ⟨e0, he0⟩ := formatOne_missing_field fs hmiss
  obtain ⟨e1, he1⟩ := formatList_error_of_mem ms ⟨_, hbad, e0, he0⟩
  refine ⟨"G4F completion failed: " ++ e1, ?_⟩
  rw [mainRun_obj, hmsg]
  simp [chat_completion, chat_completion_body, formatMessages, Option.getD, he1]

/-- Witness for C9: a single message with a role but no content. -/
theorem C9_missing_message_field_witness :
    ∃ e, mainRun (stubProvider "hi")
        (.ok (.jobj [("messages",
          .jarr [.jobj [("role", .jstr "user")]])])) = ([errorObj e], 1) :=
  C9_missing_message_field (stubProvider "hi")
    [("messages", .jarr [.jobj [("role", .jstr "user")]])]
    [.jobj [("role", .jstr "user")]] [("role", .jstr "user")]
    rfl (List.mem_singleton.mpr rfl) (Or.inr rfl)
